import Mathlib

/-!
Verification of the Eksplorasa API repository (infrastructure-as-code
definitions, a deploy shell script, and a DynamoDB write script).

Shallow embedding:
* the deploy shell script (`src/unnamed/part_001`, second segment) becomes a
  list of shell commands interpreted with `set -e` semantics over an explicit
  state (last exit status, the `CURRENT_ACCOUNT` variable, printed output,
  external commands issued);
* the CDK stacks (`src/lib/eksplorasa-api-stack.ts`, the unnamed stack variant
  and `MyCdkStack` in `src/unnamed/part_001`) become records of the resources
  they declare;
* the DynamoDB write script (`src/unnamed/part_000`) becomes a function from
  the outcome of its single network call to the calls it issues and the lines
  it logs.
-/

/-! ### Deploy script configuration (src/unnamed/part_001, lines 172-175) -/

/-- `AWS_ACCOUNT_ID="315565838153"` in the deploy script. -/
def AWS_ACCOUNT_ID : String := "315565838153"

/-- `AWS_REGION="ap-southeast-3"` in the deploy script. -/
def AWS_REGION : String := "ap-southeast-3"

/-- `STAGE="dev"` in the deploy script. -/
def DEPLOY_STAGE : String := "dev"

/-- `STACK_NAME="EksplorasaApiStack-${STAGE}"` in the deploy script. -/
def STACK_NAME : String := "EksplorasaApiStack-" ++ DEPLOY_STAGE

/-! ### Deploy script embedding -/

/-- The external commands the deploy script runs, in the order they appear:
`aws sts get-caller-identity` (bare credential check), the
`CURRENT_ACCOUNT=$(aws sts get-caller-identity --query Account)` substitution,
`npm ci`, `npm run build`, and `npx cdk deploy`. -/
inductive DeployStep
  | checkCreds
  | accountQuery
  | npmCi
  | npmBuild
  | cdkDeploy
deriving DecidableEq, Repr

/-- The outcomes of the external commands: exit codes, and the account id the
identity query prints when it succeeds.  The script itself is a function of
this environment. -/
structure DeployEnv where
  stsExit : Nat
  accountQueryExit : Nat
  currentAccount : String
  npmCiExit : Nat
  npmBuildExit : Nat
  cdkDeployExit : Nat

/-- Exit code of each external command in a given environment. -/
def stepExit (env : DeployEnv) : DeployStep → Nat
  | .checkCreds => env.stsExit
  | .accountQuery => env.accountQueryExit
  | .npmCi => env.npmCiExit
  | .npmBuild => env.npmBuildExit
  | .cdkDeploy => env.cdkDeployExit

/-- A line printed by the deploy script.  Lines that interpolate a shell
variable are separate constructors carrying the interpolated value. -/
inductive OutLine
  /-- `echo` of a fixed string. -/
  | text (s : String)
  /-- `echo "✅ AWS credentials verified for account: $CURRENT_ACCOUNT"`. -/
  | verified (account : String)
  /-- `echo "⚠️  Warning: Current AWS account ($CURRENT_ACCOUNT) doesn't match
  target account ($AWS_ACCOUNT_ID)"`. -/
  | mismatchWarn (current target : String)
deriving DecidableEq, Repr

/-- The shell commands of the deploy script body, flattened: each `if` in the
script has a fixed shape and becomes one command. -/
inductive ShellCmd
  /-- `echo s`. -/
  | echo (s : String)
  /-- An external command; with `set -e`, a non-zero exit aborts the script. -/
  | run (step : DeployStep)
  /-- `if [ $? -ne 0 ]; then echo msg; exit code; fi`. -/
  | ifLastStatusNonzero (msg : String) (code : Nat)
  /-- `CURRENT_ACCOUNT=$(aws sts get-caller-identity --query Account ...)`;
  with `set -e`, a failing substitution aborts the script. -/
  | assignCurrentAccount
  /-- `if [ "$CURRENT_ACCOUNT" != "$AWS_ACCOUNT_ID" ]; then` print the two
  warning lines `; exit code; fi`. -/
  | ifAccountMismatch (code : Nat)
  /-- `echo "✅ AWS credentials verified for account: $CURRENT_ACCOUNT"`. -/
  | echoVerified
  /-- `export STAGE=$STAGE` (no effect on the modelled state). -/
  | exportStage

/-- Shell state while the script runs: `$?`, the `CURRENT_ACCOUNT` variable,
the lines printed so far, and the external commands issued so far. -/
structure ShellState where
  lastStatus : Nat
  currentAccountVar : String
  output : List OutLine
  stepsRun : List DeployStep
deriving Repr

/-- One command.  Returns the new state, and `some code` when the script
terminates here (an explicit `exit`, or `set -e` on a failing command). -/
def execCmd (env : DeployEnv) (st : ShellState) : ShellCmd → ShellState × Option Nat
  | .echo s => ({ st with output := st.output ++ [.text s], lastStatus := 0 }, none)
  | .run step =>
      let c := stepExit env step
      let st2 := { st with stepsRun := st.stepsRun ++ [step], lastStatus := c }
      if c ≠ 0 then (st2, some c) else (st2, none)
  | .ifLastStatusNonzero msg code =>
      if st.lastStatus ≠ 0 then
        ({ st with output := st.output ++ [.text msg] }, some code)
      else (st, none)
  | .assignCurrentAccount =>
      let c := env.accountQueryExit
      let st2 := { st with stepsRun := st.stepsRun ++ [.accountQuery], lastStatus := c }
      if c ≠ 0 then (st2, some c)
      else ({ st2 with currentAccountVar := env.currentAccount }, none)
  | .ifAccountMismatch code =>
      if st.currentAccountVar ≠ AWS_ACCOUNT_ID then
        ({ st with
            output := st.output ++
              [.mismatchWarn st.currentAccountVar AWS_ACCOUNT_ID,
               .text "Please switch to the correct AWS profile or account."] }, some code)
      else (st, none)
  | .echoVerified =>
      ({ st with
          output := st.output ++ [.verified st.currentAccountVar]
          lastStatus := 0 }, none)
  | .exportStage => (st, none)

/-- Run a command list until it ends or a command terminates the script. -/
def execCmds (env : DeployEnv) : List ShellCmd → ShellState → ShellState × Option Nat
  | [], st => (st, none)
  | c :: cs, st =>
      match execCmd env st c with
      | (st2, some code) => (st2, some code)
      | (st2, none) => execCmds env cs st2

/-- The message of the unreachable credential branch
(src/unnamed/part_001 line 186). -/
def credNotConfiguredMsg : String :=
  "❌ AWS credentials not configured for 'eksplorasa-dev' profile. Please run 'aws configure --profile eksplorasa-dev' first."

/-- The deploy script body (src/unnamed/part_001 lines 177-215), transcribed
in order.  `set -e` is line 169; it is the semantics of `execCmd`. -/
def deployScript : List ShellCmd :=
  [ .echo ("🚀 Starting deployment of Eksplorasa API to AWS account: " ++ AWS_ACCOUNT_ID),
    .echo ("📍 Region: " ++ AWS_REGION),
    .echo ("📦 Stack: " ++ STACK_NAME),
    .echo "",
    .echo "🔐 Checking AWS credentials...",
    .run .checkCreds,
    .ifLastStatusNonzero credNotConfiguredMsg 1,
    .assignCurrentAccount,
    .ifAccountMismatch 1,
    .echoVerified,
    .echo "",
    .echo "📦 Installing Node.js dependencies...",
    .run .npmCi,
    .echo "� Building the project...",
    .run .npmBuild,
    .echo "� Deploying CDK stack...",
    .exportStage,
    .run .cdkDeploy,
    .echo "",
    .echo "✅ Deployment completed successfully!" ]

/-- The shell state when the script body starts. -/
def initialShellState : ShellState :=
  { lastStatus := 0, currentAccountVar := "", output := [], stepsRun := [] }

/-- Run the whole deploy script in a given environment. -/
def runDeploy (env : DeployEnv) : ShellState × Option Nat :=
  execCmds env deployScript initialShellState

/-- The script's final exit status: the early-termination code when there is
one, else 0 (the script ends in a successful `echo`). -/
def deployExitCode (env : DeployEnv) : Nat :=
  match (runDeploy env).2 with
  | some c => c
  | none => 0

/-! ### Stage resolution (src/lib/eksplorasa-api-stack.ts line 13 and
src/unnamed/part_001 line 12) -/

/-- JavaScript `a || b` on an optional string: `undefined` and the empty
string are falsy, every other string is truthy. -/
def jsOrElse (a : Option String) (b : String) : String :=
  match a with
  | none => b
  | some s => if s = "" then b else s

/-- `const stage = this.node.tryGetContext('stage') || process.env.STAGE ||
'prod';`.  `ctx` is the context value of key `stage` (`none` when absent),
`envStage` the `STAGE` environment variable (`none` when unset). -/
def resolveStage (ctx envStage : Option String) : String :=
  jsOrElse ctx (jsOrElse envStage "prod")

/-! ### CDK stack models -/

/-- The environment variable block given to a lambda function.  `DB_ENDPOINT`
is `database.instanceEndpoint.hostname`, a value only known at deploy time; it
is threaded through as the `dbHost` parameter of the stack constructors. -/
structure LambdaEnvBlock where
  DB_ENDPOINT : String
  DB_PORT : String
  DB_NAME : String
  DB_USERNAME : String
  DB_PASSWORD : String
deriving DecidableEq, Repr

/-- A `lambda.Function` declaration. -/
structure LambdaFunction where
  constructId : String
  handler : String
  functionName : String
  environment : LambdaEnvBlock
  timeoutSeconds : Nat
deriving DecidableEq, Repr

/-- `lambda.FunctionUrlAuthType`. -/
inductive FnUrlAuthType
  | NONE
  | AWS_IAM
deriving DecidableEq, Repr

/-- An `addFunctionUrl` declaration: which lambda it attaches to, its auth
type and its CORS configuration. -/
structure FunctionUrl where
  lambdaConstructId : String
  authType : FnUrlAuthType
  allowedOrigins : List String
  allowedHeaders : List String
deriving DecidableEq, Repr

/-- An explicit `addMethod` declaration on an API gateway resource:
`requestParameters` maps each declared parameter name to its `required`
flag (`false` means optional). -/
structure ApiMethod where
  resourcePath : String
  httpMethod : String
  requestParameters : List (String × Bool)
deriving DecidableEq, Repr

/-- An `apigateway.RestApi` declaration with its explicitly added methods. -/
structure RestApiModel where
  constructId : String
  restApiName : String
  stageName : String
  corsAllowOrigins : List String
  methods : List ApiMethod
deriving DecidableEq, Repr

/-- `dynamodb.AttributeType`. -/
inductive DynAttributeType
  | STRING
  | NUMBER
  | BINARY
deriving DecidableEq, Repr

/-- A `dynamodb.Table` declaration. -/
structure TableDecl where
  tableName : String
  partitionKeyName : String
  partitionKeyType : DynAttributeType
  sortKey : Option (String × DynAttributeType)
deriving DecidableEq, Repr

/-- A `cdk.CfnOutput` declaration. -/
structure OutputDecl where
  constructId : String
  exportName : String
deriving DecidableEq, Repr

/-- The resources a stack file declares, restricted to those the claims are
about. -/
structure StackModel where
  vpcId : String
  databaseId : String
  databaseName : String
  masterUsername : String
  masterPassword : String
  lambdas : List LambdaFunction
  functionUrls : List FunctionUrl
  restApis : List RestApiModel
  tables : List TableDecl
  outputs : List OutputDecl
deriving DecidableEq, Repr

/-- `EksplorasaApiStack` as declared in `src/lib/eksplorasa-api-stack.ts`
(customer homepage lambda with a function URL, browse API lambda behind an
API gateway).  `stage` is the resolved stage, `dbHost` the database endpoint
hostname resolved at deploy time. -/
def eksplorasaApiStack (stage dbHost : String) : StackModel :=
  { vpcId := "EksplorasaVpc-" ++ stage
    databaseId := "EksplorasaDatabase" ++ stage
    databaseName := "eksplorasa" ++ stage
    masterUsername := "eksplorasa"
    masterPassword := "eksplorasa2025"
    lambdas :=
      [ { constructId := "CustomerHomepageLambda-" ++ stage
          handler := "customer_homepage.handler"
          functionName := "eksplorasa-customer-homepage-" ++ stage
          environment :=
            { DB_ENDPOINT := dbHost
              DB_PORT := "5432"
              DB_NAME := "eksplorasa" ++ stage
              DB_USERNAME := "eksplorasa"
              DB_PASSWORD := "eksplorasa2025" }
          timeoutSeconds := 30 },
        { constructId := "BrowseApiLambda-" ++ stage
          handler := "browse_api.handler"
          functionName := "eksplorasa-browse-api-" ++ stage
          environment :=
            { DB_ENDPOINT := dbHost
              DB_PORT := "5432"
              DB_NAME := "postgres"
              DB_USERNAME := "eksplorasa"
              DB_PASSWORD := "eksplorasa2025" }
          timeoutSeconds := 30 } ]
    functionUrls :=
      [ { lambdaConstructId := "CustomerHomepageLambda-" ++ stage
          authType := .NONE
          allowedOrigins := ["*"]
          allowedHeaders := ["*"] } ]
    restApis :=
      [ { constructId := "BrowseApi-" ++ stage
          restApiName := "Eksplorasa Browse API - " ++ stage
          stageName := stage
          corsAllowOrigins := ["*"]
          methods :=
            [ { resourcePath := "explore"
                httpMethod := "GET"
                requestParameters :=
                  [ ("method.request.querystring.sort", false),
                    ("method.request.querystring.timeStart", false),
                    ("method.request.querystring.timeEnd", false),
                    ("method.request.querystring.minPrice", false),
                    ("method.request.querystring.maxPrice", false),
                    ("method.request.querystring.cuisines", false),
                    ("method.request.querystring.bagTypes", false),
                    ("method.request.querystring.maxDistance", false),
                    ("method.request.querystring.latitude", false),
                    ("method.request.querystring.longitude", false) ] } ] } ]
    tables := []
    outputs :=
      [ { constructId := "CustomerHomepageUrl-" ++ stage
          exportName := "EksplorasaApi-" ++ stage ++ "-CustomerHomepageUrl" },
        { constructId := "BrowseApiUrl-" ++ stage
          exportName := "EksplorasaApi-" ++ stage ++ "-BrowseApiUrl" } ] }

/-- `EksplorasaApiStack` as declared in the unnamed stack file
(`src/unnamed/part_001`, first segment): customer homepage and restaurant
detail lambdas, each with a function URL; no API gateway. -/
def eksplorasaApiStackUnnamed (stage dbHost : String) : StackModel :=
  { vpcId := "EksplorasaVpc-" ++ stage
    databaseId := "EksplorasaDatabase" ++ stage
    databaseName := "eksplorasa" ++ stage
    masterUsername := "eksplorasa"
    masterPassword := "eksplorasa2025"
    lambdas :=
      [ { constructId := "CustomerHomepageLambda-" ++ stage
          handler := "customer_homepage.handler"
          functionName := "eksplorasa-customer-homepage-" ++ stage
          environment :=
            { DB_ENDPOINT := dbHost
              DB_PORT := "5432"
              DB_NAME := "eksplorasa" ++ stage
              DB_USERNAME := "eksplorasa"
              DB_PASSWORD := "eksplorasa2025" }
          timeoutSeconds := 30 },
        { constructId := "RestaurantDetailLambda-" ++ stage
          handler := "customer_restaurant_detail.handler"
          functionName := "eksplorasa-restaurant-detail-" ++ stage
          environment :=
            { DB_ENDPOINT := dbHost
              DB_PORT := "5432"
              DB_NAME := "eksplorasa" ++ stage
              DB_USERNAME := "eksplorasa"
              DB_PASSWORD := "eksplorasa2025" }
          timeoutSeconds := 30 } ]
    functionUrls :=
      [ { lambdaConstructId := "CustomerHomepageLambda-" ++ stage
          authType := .NONE
          allowedOrigins := ["*"]
          allowedHeaders := ["*"] },
        { lambdaConstructId := "RestaurantDetailLambda-" ++ stage
          authType := .NONE
          allowedOrigins := ["*"]
          allowedHeaders := ["*"] } ]
    restApis := []
    tables := []
    outputs :=
      [ { constructId := "CustomerHomepageUrl-" ++ stage
          exportName := "EksplorasaApi-" ++ stage ++ "-CustomerHomepageUrl" },
        { constructId := "RestaurantDetailUrl-" ++ stage
          exportName := "EksplorasaApi-" ++ stage ++ "-RestaurantDetailUrl" } ] }

/-- `MyCdkStack` (`src/unnamed/part_001`, third segment): the single DynamoDB
table declaration. -/
def myCdkStackTables : List TableDecl :=
  [ { tableName := "my-first-table"
      partitionKeyName := "id"
      partitionKeyType := .STRING
      sortKey := none } ]

/-- All NoSQL table declarations in the repository: `MyCdkStack` declares the
one table; the two `EksplorasaApiStack` variants declare none. -/
def allDeclaredTables (stage dbHost : String) : List TableDecl :=
  (eksplorasaApiStack stage dbHost).tables ++
    (eksplorasaApiStackUnnamed stage dbHost).tables ++ myCdkStackTables

/-! ### DynamoDB write script (src/unnamed/part_000) -/

/-- The parameters of the `PutCommand` built by `addItem`: the table name and
the fixed item's two attributes. -/
structure PutParams where
  TableName : String
  itemId : String
  itemUsername : String
deriving DecidableEq, Repr

/-- The params object of `addItem` (src/unnamed/part_000 lines 7-13). -/
def addItemParams : PutParams :=
  { TableName := "my-first-table", itemId := "user_001", itemUsername := "presley" }

/-- A thrown AWS SDK error: `addItem` only ever reads its `stack` field. -/
structure AwsSdkError where
  stack : String
deriving DecidableEq, Repr

/-- A line logged by `addItem`: `console.log("Success - item added:", data)`
or `console.error("Error", err.stack)`. -/
inductive DbLogLine
  | success (data : String)
  | error (stack : String)
deriving DecidableEq, Repr

/-- `addItem` (src/unnamed/part_000 lines 6-21) as a function of the outcome
of its single `client.send` call: it returns the list of `send` calls it
issues and the list of lines it logs.  `try` around the awaited call, log the
data on success, log `err.stack` on any failure. -/
def addItem (outcome : Except AwsSdkError String) :
    List PutParams × List DbLogLine :=
  ( [addItemParams],
    match outcome with
    | .ok data => [.success data]
    | .error err => [.error err.stack] )

/-! ### Deploy script failure modes -/

/-- The ways a run of the deploy script can first go wrong, in script order:
the bare credential check fails; the account-query substitution fails; the
queried account differs from the target; `npm ci`, `npm run build` or
`npx cdk deploy` fails. -/
inductive FailMode
  | credCheck
  | accountQueryCmd
  | accountMismatch
  | installFail
  | buildFail
  | deployFail
deriving DecidableEq, Repr

/-- The first failing step of a run, if any. -/
def firstFailure (env : DeployEnv) : Option FailMode :=
  if env.stsExit ≠ 0 then some .credCheck
  else if env.accountQueryExit ≠ 0 then some .accountQueryCmd
  else if env.currentAccount ≠ AWS_ACCOUNT_ID then some .accountMismatch
  else if env.npmCiExit ≠ 0 then some .installFail
  else if env.npmBuildExit ≠ 0 then some .buildFail
  else if env.cdkDeployExit ≠ 0 then some .deployFail
  else none

/-- The external commands that come after each failure point in the script. -/
def laterSteps : FailMode → List DeployStep
  | .credCheck => [.accountQuery, .npmCi, .npmBuild, .cdkDeploy]
  | .accountQueryCmd => [.npmCi, .npmBuild, .cdkDeploy]
  | .accountMismatch => [.npmCi, .npmBuild, .cdkDeploy]
  | .installFail => [.npmBuild, .cdkDeploy]
  | .buildFail => [.cdkDeploy]
  | .deployFail => []

/-- The script line that describes the failing step: the announcement `echo`
printed just before the step, or the warning printed by the mismatch branch. -/
def failMessage (env : DeployEnv) : FailMode → OutLine
  | .credCheck => .text "🔐 Checking AWS credentials..."
  | .accountQueryCmd => .text "🔐 Checking AWS credentials..."
  | .accountMismatch => .mismatchWarn env.currentAccount AWS_ACCOUNT_ID
  | .installFail => .text "📦 Installing Node.js dependencies..."
  | .buildFail => .text "� Building the project..."
  | .deployFail => .text "� Deploying CDK stack..."

/-! ### Concrete environments used by the witnesses -/

/-- A run where both identity calls succeed but return an account that is not
the configured target. -/
def mismatchEnv : DeployEnv :=
  { stsExit := 0, accountQueryExit := 0, currentAccount := "000000000000",
    npmCiExit := 0, npmBuildExit := 0, cdkDeployExit := 0 }

/-- A run where the account matches but `npm ci` fails with exit code 7. -/
def ciFailEnv : DeployEnv :=
  { stsExit := 0, accountQueryExit := 0, currentAccount := "315565838153",
    npmCiExit := 7, npmBuildExit := 0, cdkDeployExit := 0 }

/-- A run where the bare credential check fails with exit code 42. -/
def stsFailEnv : DeployEnv :=
  { stsExit := 42, accountQueryExit := 0, currentAccount := "315565838153",
    npmCiExit := 0, npmBuildExit := 0, cdkDeployExit := 0 }

/-! ### Claims -/

/-- C1: with the configured target account id and profile fixed, whenever the
identity check succeeds but returns an account different from the target, the
deploy script prints the mismatch warning and terminates with exit code 1,
without ever issuing the dependency install, the build, or the deploy
command. -/
theorem deploy_account_mismatch_aborts (env : DeployEnv)
    (h1 : env.stsExit = 0) (h2 : env.accountQueryExit = 0)
    (h3 : env.currentAccount ≠ AWS_ACCOUNT_ID) :
    (runDeploy env).2 = some 1 ∧
    OutLine.mismatchWarn env.currentAccount AWS_ACCOUNT_ID ∈ (runDeploy env).1.output ∧
    DeployStep.npmCi ∉ (runDeploy env).1.stepsRun ∧
    DeployStep.npmBuild ∉ (runDeploy env).1.stepsRun ∧
    DeployStep.cdkDeploy ∉ (runDeploy env).1.stepsRun := by
  simp [runDeploy, deployScript, execCmds, execCmd, initialShellState, stepExit, h1, h2, h3]

/-- C1 witness: a concrete run authenticated as account `000000000000` exits
with code 1, prints the warning, and runs only the two identity commands. -/
theorem deploy_account_mismatch_aborts_witness :
    (runDeploy mismatchEnv).2 = some 1 ∧
    OutLine.mismatchWarn "000000000000" AWS_ACCOUNT_ID ∈ (runDeploy mismatchEnv).1.output ∧
    (runDeploy mismatchEnv).1.stepsRun = [DeployStep.checkCreds, DeployStep.accountQuery] := by
  have h := deploy_account_mismatch_aborts mismatchEnv rfl rfl (by decide)
  exact ⟨h.1, h.2.1, by decide⟩

/-- C2: the stage used by the stack is the context value of key `stage` when
that is truthy, else the `STAGE` environment variable when that is truthy,
else `prod`; and the resolved stage is embedded in the VPC, database, lambda
and output identifiers of the stack. -/
theorem stage_resolution_and_identifiers (ctx envStage : Option String) (dbHost : String) :
    (∀ s, ctx = some s → s ≠ "" → resolveStage ctx envStage = s) ∧
    ((ctx = none ∨ ctx = some "") →
      ∀ s, envStage = some s → s ≠ "" → resolveStage ctx envStage = s) ∧
    ((ctx = none ∨ ctx = some "") → (envStage = none ∨ envStage = some "") →
      resolveStage ctx envStage = "prod") ∧
    ((eksplorasaApiStack (resolveStage ctx envStage) dbHost).vpcId =
        "EksplorasaVpc-" ++ resolveStage ctx envStage ∧
      (eksplorasaApiStack (resolveStage ctx envStage) dbHost).databaseId =
        "EksplorasaDatabase" ++ resolveStage ctx envStage ∧
      ((eksplorasaApiStack (resolveStage ctx envStage) dbHost).lambdas.map
          (fun l => l.constructId)) =
        ["CustomerHomepageLambda-" ++ resolveStage ctx envStage,
         "BrowseApiLambda-" ++ resolveStage ctx envStage] ∧
      ((eksplorasaApiStack (resolveStage ctx envStage) dbHost).outputs.map
          (fun o => o.constructId)) =
        ["CustomerHomepageUrl-" ++ resolveStage ctx envStage,
         "BrowseApiUrl-" ++ resolveStage ctx envStage]) := by
  refine ⟨?_, ?_, ?_, rfl, rfl, rfl, rfl⟩
  · intro s hs hne
    subst hs
    simp [resolveStage, jsOrElse, hne]
  · intro hctx s hs hne
    subst hs
    rcases hctx with h | h <;> subst h <;> simp [resolveStage, jsOrElse, hne]
  · intro hctx henv
    rcases hctx with h | h <;> subst h <;>
      rcases henv with h2 | h2 <;> subst h2 <;> simp [resolveStage, jsOrElse]

/-- C2 witness: concrete resolutions — truthy context wins, then a truthy
environment variable, then the default `prod`. -/
theorem stage_resolution_and_identifiers_witness :
    resolveStage (some "dev") none = "dev" ∧
    resolveStage none (some "beta") = "beta" ∧
    resolveStage (some "") none = "prod" := by
  refine ⟨(stage_resolution_and_identifiers (some "dev") none "h").1 "dev" rfl (by decide),
    (stage_resolution_and_identifiers none (some "beta") "h").2.1 (Or.inl rfl) "beta" rfl
      (by decide),
    (stage_resolution_and_identifiers (some "") none "h").2.2.1 (Or.inr rfl) (Or.inl rfl)⟩

/-- C3: the first failing step of a deploy run (credential check, account
verification, install, build, deploy) terminates the script with a non-zero
exit status, no step after it is ever issued, and the script line describing
the failing step has been printed. -/
theorem deploy_first_failure_aborts (env : DeployEnv) (m : FailMode)
    (h : firstFailure env = some m) :
    deployExitCode env ≠ 0 ∧
    (∀ s ∈ laterSteps m, s ∉ (runDeploy env).1.stepsRun) ∧
    failMessage env m ∈ (runDeploy env).1.output := by
  by_cases h1 : env.stsExit = 0 <;>
    by_cases h2 : env.accountQueryExit = 0 <;>
    by_cases h3 : env.currentAccount = "315565838153" <;>
    by_cases h4 : env.npmCiExit = 0 <;>
    by_cases h5 : env.npmBuildExit = 0 <;>
    by_cases h6 : env.cdkDeployExit = 0 <;>
    simp [firstFailure, AWS_ACCOUNT_ID, h1, h2, h3, h4, h5, h6] at h <;>
    subst h <;>
    simp [deployExitCode, runDeploy, deployScript, execCmds, execCmd, initialShellState,
      stepExit, laterSteps, failMessage, AWS_ACCOUNT_ID, AWS_REGION, STACK_NAME, DEPLOY_STAGE,
      h1, h2, h3, h4, h5, h6]

/-- C3 witness: a concrete run where `npm ci` fails with exit code 7 ends with
exit status 7, never runs the build or deploy commands, and has printed the
install announcement. -/
theorem deploy_first_failure_aborts_witness :
    deployExitCode ciFailEnv = 7 ∧
    (runDeploy ciFailEnv).1.stepsRun =
      [DeployStep.checkCreds, DeployStep.accountQuery, DeployStep.npmCi] ∧
    failMessage ciFailEnv FailMode.installFail ∈ (runDeploy ciFailEnv).1.output := by
  have h := deploy_first_failure_aborts ciFailEnv FailMode.installFail (by decide)
  exact ⟨by decide, by decide, h.2.2⟩

/-- C4: for every outcome of its single network call, `addItem` issues exactly
one `send` (the fixed `PutCommand`), logs the returned data on success, logs
the caught failure uniformly (the same handling for every error, with no
classification) on failure, and never retries. -/
theorem addItem_single_call_and_logging :
    (∀ outcome : Except AwsSdkError String, (addItem outcome).1 = [addItemParams]) ∧
    (∀ data : String, (addItem (Except.ok data)).2 = [DbLogLine.success data]) ∧
    (∀ err : AwsSdkError, (addItem (Except.error err)).2 = [DbLogLine.error err.stack]) :=
  ⟨fun _ => rfl, fun _ => rfl, fun _ => rfl⟩

/-- C5: the only method explicitly added to the API gateway is a single GET on
the `explore` resource, and its declared request parameters are exactly the
ten query strings, every one marked non-required. -/
theorem browse_api_single_get_method (stage dbHost : String) :
    ((eksplorasaApiStack stage dbHost).restApis.map (fun a => a.methods)).flatten =
      [ { resourcePath := "explore"
          httpMethod := "GET"
          requestParameters :=
            [ ("method.request.querystring.sort", false),
              ("method.request.querystring.timeStart", false),
              ("method.request.querystring.timeEnd", false),
              ("method.request.querystring.minPrice", false),
              ("method.request.querystring.maxPrice", false),
              ("method.request.querystring.cuisines", false),
              ("method.request.querystring.bagTypes", false),
              ("method.request.querystring.maxDistance", false),
              ("method.request.querystring.latitude", false),
              ("method.request.querystring.longitude", false) ] } ] := by
  simp [eksplorasaApiStack]

/-- C6: the unnamed stack variant declares exactly two function URLs, both
with authentication type NONE and CORS allowing every origin; the function
URL of `src/lib/eksplorasa-api-stack.ts` has the same auth type and CORS. -/
theorem function_urls_public_no_auth (stage dbHost : String) :
    ((eksplorasaApiStackUnnamed stage dbHost).functionUrls.map
        (fun u => (u.authType, u.allowedOrigins))) =
      [(FnUrlAuthType.NONE, ["*"]), (FnUrlAuthType.NONE, ["*"])] ∧
    ((eksplorasaApiStack stage dbHost).functionUrls.map
        (fun u => (u.authType, u.allowedOrigins))) =
      [(FnUrlAuthType.NONE, ["*"])] :=
  ⟨rfl, rfl⟩

/-- C7: the repository declares exactly one NoSQL table, `my-first-table`,
keyed solely by the string partition key `id`, and the write script puts into
that same table exactly one fixed item with `id = "user_001"` and
`username = "presley"`. -/
theorem single_table_fixed_item (stage dbHost : String) :
    allDeclaredTables stage dbHost =
      [ { tableName := "my-first-table"
          partitionKeyName := "id"
          partitionKeyType := DynAttributeType.STRING
          sortKey := none } ] ∧
    addItemParams =
      { TableName := "my-first-table", itemId := "user_001", itemUsername := "presley" } ∧
    addItemParams.TableName = ((myCdkStackTables.map (fun t => t.tableName)).head?).getD "" ∧
    (∀ outcome : Except AwsSdkError String, (addItem outcome).1 = [addItemParams]) := by
  refine ⟨rfl, rfl, rfl, fun _ => rfl⟩

/-- C8: the database credentials are the literals `eksplorasa` and
`eksplorasa2025`, hard-coded in the database declaration of both stack
variants, and the same two literals appear in the environment of every lambda
function either stack declares. -/
theorem hardcoded_credentials (stage dbHost : String) :
    (eksplorasaApiStack stage dbHost).masterUsername = "eksplorasa" ∧
    (eksplorasaApiStack stage dbHost).masterPassword = "eksplorasa2025" ∧
    (eksplorasaApiStackUnnamed stage dbHost).masterUsername = "eksplorasa" ∧
    (eksplorasaApiStackUnnamed stage dbHost).masterPassword = "eksplorasa2025" ∧
    ((eksplorasaApiStack stage dbHost).lambdas.map
        (fun l => (l.environment.DB_USERNAME, l.environment.DB_PASSWORD))) =
      [("eksplorasa", "eksplorasa2025"), ("eksplorasa", "eksplorasa2025")] ∧
    ((eksplorasaApiStackUnnamed stage dbHost).lambdas.map
        (fun l => (l.environment.DB_USERNAME, l.environment.DB_PASSWORD))) =
      [("eksplorasa", "eksplorasa2025"), ("eksplorasa", "eksplorasa2025")] :=
  ⟨rfl, rfl, rfl, rfl, rfl, rfl⟩

/-- C9: for every stage, the browse API lambda's `DB_NAME` is the literal
`postgres`, while the provisioned database name and the customer homepage
lambda's `DB_NAME` are both `eksplorasa` followed by the stage — and
`postgres` can never equal that concatenation. -/
theorem browse_db_name_differs (stage dbHost : String) :
    ((eksplorasaApiStack stage dbHost).lambdas.map (fun l => l.environment.DB_NAME)) =
      ["eksplorasa" ++ stage, "postgres"] ∧
    (eksplorasaApiStack stage dbHost).databaseName = "eksplorasa" ++ stage ∧
    ("postgres" : String) ≠ "eksplorasa" ++ stage := by
  refine ⟨rfl, rfl, ?_⟩
  intro h
  have hd := congrArg String.data h
  rw [String.data_append] at hd
  have h1 : ("eksplorasa" : String).data = 'e' :: "ksplorasa".data := by decide
  have h2 : ("postgres" : String).data = 'p' :: "ostgres".data := by decide
  rw [h1, h2] at hd
  simp at hd

/-- C10: the explicit `if [ $? -ne 0 ]` credential branch is dead code: its
message is never printed on any run, because a failing credential check
already terminates the script under `set -e` (running only that one command),
and a successful check leaves `$?` equal to zero. -/
theorem cred_check_branch_unreachable (env : DeployEnv) :
    OutLine.text credNotConfiguredMsg ∉ (runDeploy env).1.output ∧
    (env.stsExit ≠ 0 → (runDeploy env).2 = some env.stsExit ∧
      (runDeploy env).1.stepsRun = [DeployStep.checkCreds]) := by
  by_cases h1 : env.stsExit = 0 <;>
    by_cases h2 : env.accountQueryExit = 0 <;>
    by_cases h3 : env.currentAccount = "315565838153" <;>
    by_cases h4 : env.npmCiExit = 0 <;>
    by_cases h5 : env.npmBuildExit = 0 <;>
    by_cases h6 : env.cdkDeployExit = 0 <;>
    simp [runDeploy, deployScript, execCmds, execCmd, initialShellState, stepExit,
      credNotConfiguredMsg, AWS_ACCOUNT_ID, AWS_REGION, STACK_NAME, DEPLOY_STAGE,
      h1, h2, h3, h4, h5, h6]

/-- C10 witness: a concrete run whose credential check fails with exit code 42
terminates with that code after the single credential command, and in
particular never reaches the dead branch. -/
theorem cred_check_branch_unreachable_witness :
    (runDeploy stsFailEnv).2 = some 42 ∧
    (runDeploy stsFailEnv).1.stepsRun = [DeployStep.checkCreds] :=
  (cred_check_branch_unreachable stsFailEnv).2 (by decide)
